import Mathlib

/-!
Verification of the multi-tenant SaaS RAG sample application.

The definitions below are a shallow embedding of the TypeScript sources
(frontend React hooks/components, the CDK API construct) and, where the
backend Lambda code is not part of the repository snapshot, of the
behaviour the specification ascribes to it (such definitions carry a
`Modelled from the spec:` doc comment).
-/

namespace RagApp

/-! ## Chat data model (frontend/src/features/chat) -/

/-- Role of a chat message, the union of `user` and `assistant` in the
TypeScript types. -/
inductive Role where
  | user
  | assistant
deriving DecidableEq, Repr

/-- A retrieved source attached to an assistant message (frontend `Source`). -/
structure ChatSource where
  title : String
  snippet : String
deriving DecidableEq, Repr

/-- Frontend `Message` record (id, role, content, timestamp, optional
`loading` flag, optional `sources` array). Timestamps are modelled as `Nat`
milliseconds (`Date.now()`). -/
structure Message where
  id : String
  role : Role
  content : String
  timestamp : Nat
  loading : Bool := false
  sources : Option (List ChatSource) := none
deriving DecidableEq, Repr

/-- Model of JavaScript `String.prototype.trim`: drops leading and
trailing whitespace. -/
def jsTrim (s : String) : String :=
  ⟨((s.data.dropWhile Char.isWhitespace).reverse.dropWhile
      Char.isWhitespace).reverse⟩

/-- Identifier `user-${Date.now()}` built in `useChatMessages.sendMessage`. -/
def mkUserId (t : Nat) : String := "user-" ++ toString t

/-- Identifier `assistant-${Date.now()}` of the loading placeholder. -/
def mkLoadingId (t : Nat) : String := "assistant-" ++ toString t

/-- Identifier `error-${Date.now()}` of the error recovery message. -/
def mkErrorId (t : Nat) : String := "error-" ++ toString t

/-- The user message appended by `sendMessage` (content is the trimmed input). -/
def userMessage (input : String) (t : Nat) : Message :=
  { id := mkUserId t, role := .user, content := jsTrim input, timestamp := t }

/-- The in-flight assistant placeholder appended by `sendMessage`
(empty content, `loading: true`). -/
def loadingMessage (t : Nat) : Message :=
  { id := mkLoadingId t, role := .assistant, content := "", timestamp := t,
    loading := true }

/-- The final assistant message that replaces the placeholder on success:
it keeps the id of the replaced message and carries the role `assistant`,
the response text, a fresh timestamp and the normalised sources. -/
def finalAssistantMessage (lid ans : String) (srcs : List ChatSource) (t : Nat) :
    Message :=
  { id := lid, role := .assistant, content := ans, timestamp := t,
    sources := some srcs }

/-- Success-path update in `sendMessage`:
`prev.map(msg => msg.id === loadingMessage.id ? {...final...} : msg)`. -/
def replaceLoadingMessage (msgs : List Message) (lid ans : String)
    (srcs : List ChatSource) (t : Nat) : List Message :=
  msgs.map (fun m =>
    if m.id = lid then
      { id := m.id, role := .assistant, content := ans, timestamp := t,
        sources := some srcs }
    else m)

/-- The assistant error message built in the `catch` branch of `sendMessage`. -/
def errorMessage (t : Nat) : Message :=
  { id := mkErrorId t, role := .assistant,
    content := "An error occurred while sending the message.",
    timestamp := t, sources := some [] }

/-- Error-path update in `sendMessage`:
`[...prev.filter(msg => msg.id !== loadingMessage.id), errorMessage]`. -/
def errorRecovery (msgs : List Message) (lid : String) (t : Nat) :
    List Message :=
  msgs.filter (fun m => m.id ≠ lid) ++ [errorMessage t]

/-- Response body of `POST /chat/messages` as typed on the frontend
(`ApiResponseBody`); the `sources` field may be absent. -/
structure ApiResponseBody where
  message : String
  sources : Option (List ChatSource)
deriving DecidableEq, Repr

/-- Normalisation `response.sources || []` performed both in
`sendChatMessage` (chatApi.ts) and in the hook. -/
def normalizeSources (s : Option (List ChatSource)) : List ChatSource :=
  s.getD []

/-- Result of `sendChatMessage` on a successful HTTP response:
`{message: response.data.message, sources: response.data.sources || []}`. -/
def sendChatMessageResult (b : ApiResponseBody) : String × List ChatSource :=
  (b.message, normalizeSources b.sources)

/-- Outcome of the whole `sendMessage` call: final message list, final
`isSubmitting` flag, and whether a network request was issued. -/
structure SendOutcome where
  messages : List Message
  isSubmitting : Bool
  requestSent : Bool
deriving DecidableEq, Repr

/-- Embedding of `useChatMessages.sendMessage`: the guard
`if (isSubmitting || !input.trim()) return;`, then append user + loading
messages, await the backend (`resp`), and either replace the placeholder
(success) or filter it out and append an error message (failure); the
`finally` block resets `isSubmitting`. -/
def sendMessage (msgs : List Message) (isSubmitting : Bool) (input : String)
    (t : Nat) (resp : Except Unit ApiResponseBody) : SendOutcome :=
  if isSubmitting || jsTrim input = "" then
    { messages := msgs, isSubmitting := isSubmitting, requestSent := false }
  else
    let withPending := msgs ++ [userMessage input t, loadingMessage t]
    match resp with
    | .ok b =>
        { messages := replaceLoadingMessage withPending (mkLoadingId t)
            b.message (normalizeSources b.sources) t,
          isSubmitting := false, requestSent := true }
    | .error _ =>
        { messages := errorRecovery withPending (mkLoadingId t) t,
          isSubmitting := false, requestSent := true }

/-! ## Chat rendering (ChatInput.tsx MessageContent, SimpleSourcesList.tsx) -/

/-- Text rendered by `SimpleSourcesList` for a given source count. -/
def simpleSourcesText (sourceCount : Nat) : String :=
  if sourceCount > 0 then
    "Response based on " ++ toString sourceCount ++ " sources"
  else
    "No sources used for this response"

/-- Grounding indicator rendered by `MessageContent` under an assistant
message: when `sources` is an array (even empty) it renders
`SimpleSourcesList` with the count, otherwise the literal
"No sources found"; user messages render no indicator. -/
def groundingText (m : Message) : Option String :=
  if m.role = .assistant then
    some (match m.sources with
      | some ss => simpleSourcesText ss.length
      | none => "No sources found")
  else
    none

/-! ## Upload request headers (uploadApi.ts, api/axios.ts) -/

/-- HTTP headers as an association list of name/value pairs. -/
abbrev Headers := List (String × String)

/-- Header upsert, the effect of `headers[k] = v`. -/
def setHeader (k v : String) (h : Headers) : Headers :=
  (k, v) :: List.filter (fun kv => kv.1 ≠ k) h

/-- Deletion of every present header key, the effect of
`Object.keys(headers).forEach(key => delete headers[key])`. -/
def eraseAllKeys (h : Headers) : Headers :=
  (List.map Prod.fst h).foldl
    (fun acc k => List.filter (fun kv => kv.1 ≠ k) acc) h

/-- Request interceptor of the shared `apiClient` (api/axios.ts): when an
id token is available it sets `Authorization: Bearer <idToken>`. -/
def authInterceptor (idToken : Option String) (h : Headers) : Headers :=
  match idToken with
  | some tok => setHeader "Authorization" ("Bearer " ++ tok) h
  | none => h

/-- The `transformRequest` installed by `uploadFileToUrl`: deletes every
header key, then sets `Content-Type` and `x-amz-meta-original_filename`. -/
def uploadTransformRequest (fileType fileName : String) (h : Headers) :
    Headers :=
  setHeader "x-amz-meta-original_filename" fileName
    (setHeader "Content-Type" fileType (eraseAllKeys h))

/-- Headers that leave the client for the presigned PUT: axios runs the
request interceptors first, then `transformRequest` just before dispatch. -/
def uploadRequestHeaders (idToken : Option String) (base : Headers)
    (fileType fileName : String) : Headers :=
  uploadTransformRequest fileType fileName (authInterceptor idToken base)

/-- Per-request overrides passed by `uploadFileToUrl` to `apiClient.put`. -/
structure UploadRequestConfig where
  withCredentials : Bool
deriving DecidableEq, Repr

/-- The concrete config in `uploadFileToUrl`: `withCredentials: false`. -/
def uploadFileToUrlConfig : UploadRequestConfig :=
  { withCredentials := false }

/-! ## API routes (infrastructure/lib/constructs/api-construct.ts) -/

/-- HTTP methods registered by `setupRoutes`. -/
inductive HttpMethod where
  | GET
  | POST
  | DELETE
deriving DecidableEq, Repr

/-- Subset of `apigw.AuthorizationType` used by the construct. -/
inductive AuthorizationType where
  | NONE
  | COGNITO
deriving DecidableEq, Repr

/-- One method registration produced by `setupRoutes`. -/
structure Route where
  method : HttpMethod
  path : String
  handler : String
  authorizationType : AuthorizationType
  usesCognitoAuthorizer : Bool
deriving DecidableEq, Repr

/-- The six method registrations of `ApiConstruct.setupRoutes`, in source
order; each passes `authorizer: authorizer` (the Cognito user-pool
authorizer) and `authorizationType: apigw.AuthorizationType.COGNITO`. -/
def setupRoutes : List Route :=
  [ { method := .POST, path := "/chat/messages",
      handler := "chatCompletionHandler",
      authorizationType := .COGNITO, usesCognitoAuthorizer := true },
    { method := .GET, path := "/documents",
      handler := "documentManagerHandler",
      authorizationType := .COGNITO, usesCognitoAuthorizer := true },
    { method := .DELETE, path := "/documents",
      handler := "documentManagerHandler",
      authorizationType := .COGNITO, usesCognitoAuthorizer := true },
    { method := .GET, path := "/documents/upload-url",
      handler := "presignedUrlGenerator",
      authorizationType := .COGNITO, usesCognitoAuthorizer := true },
    { method := .POST, path := "/documents/sync",
      handler := "documentSyncHandler",
      authorizationType := .COGNITO, usesCognitoAuthorizer := true },
    { method := .GET, path := "/consumption/dashboard",
      handler := "consumptionMeteringHandler",
      authorizationType := .COGNITO, usesCognitoAuthorizer := true } ]

/-- Modelled from the spec: API Gateway authorizer semantics (the gateway
itself is an external collaborator). A request carries verified identity
claims or none; on a COGNITO-protected method a request without verified
claims is rejected before the integration runs ("absence or invalidity
yields an authentication failure before any core logic runs"). -/
def authorize (r : Route) (verifiedClaims : Option String) : Bool :=
  match r.authorizationType with
  | .COGNITO => verifiedClaims.isSome
  | .NONE => true

/-- Integration configuration of the `POST /documents/sync` method, read
off the `LambdaIntegration` options in `setupRoutes` (lines 120-173):
`proxy: false`, a single integration response with status `202` whose
template body carries the message `Processing started` and the status
`accepted`, and a request template that sets the request override header
`X-Amz-Invocation-Type` to `Event`. -/
structure SyncMethodConfig where
  proxy : Bool
  integrationStatusCode : String
  integrationResponseMessage : String
  integrationResponseStatus : String
  invocationTypeOverride : String
  methodResponseStatusCode : String
deriving DecidableEq, Repr

/-- The concrete configuration from the source. -/
def syncMethodConfig : SyncMethodConfig :=
  { proxy := false,
    integrationStatusCode := "202",
    integrationResponseMessage := "Processing started",
    integrationResponseStatus := "accepted",
    invocationTypeOverride := "Event",
    methodResponseStatusCode := "202" }

/-- Result of the backing Lambda, as seen by a proxy integration. Status
codes are kept as strings, as API Gateway configures them. -/
structure HandlerOutcome where
  status : String
  body : String
deriving DecidableEq, Repr

/-- Modelled from the spec: API Gateway non-proxy integration semantics.
With `proxy: false` and a static integration response the method returns
the configured status code and templated body; only a proxy integration
would surface the outcome of the handler itself. Together with the `Event`
invocation override this is the fire-and-forget behaviour ("returns
immediately; the actual work completes out-of-band"). -/
def integrationRespond (cfg : SyncMethodConfig) (h : HandlerOutcome) :
    String × String :=
  if cfg.proxy then (h.status, h.body)
  else (cfg.integrationStatusCode, cfg.integrationResponseStatus)

/-- The client call `syncDocument` (documentsApi.ts): a POST to
`/documents/sync` with body `{docId}` and header
`X-Amz-Invocation-Type: Event`. -/
structure SyncClientRequest where
  method : HttpMethod
  path : String
  docId : String
  headers : Headers
deriving DecidableEq, Repr

/-- Embedding of `syncDocument(docId)`. -/
def syncDocument (docId : String) : SyncClientRequest :=
  { method := .POST, path := "/documents/sync", docId := docId,
    headers := [("X-Amz-Invocation-Type", "Event")] }

/-! ## Document records (frontend documents feature) -/

/-- The frontend `Document` interface (documents/types): id, title,
uploadDate, fileType, size, bucket, key, status. -/
structure Document where
  id : String
  title : String
  uploadDate : String
  fileType : String
  size : String
  bucket : String
  key : String
  status : String
deriving DecidableEq, Repr

/-- Record with exactly the fields the spec names for `GET documents`
items: `{id, title, status, uploadDate, size, fileType}`. This definition
follows the words of the spec, for comparison with `Document`. -/
structure DocumentListItem where
  id : String
  title : String
  status : String
  uploadDate : String
  size : String
  fileType : String
deriving DecidableEq, Repr

/-- Projection of a repository `Document` onto the six spec-named fields. -/
def Document.toListItem (d : Document) : DocumentListItem :=
  { id := d.id, title := d.title, status := d.status,
    uploadDate := d.uploadDate, size := d.size, fileType := d.fileType }

/-- Reassembly of a `Document` from the six spec-named fields plus the two
storage fields `bucket` and `key`. -/
def Document.ofParts (item : DocumentListItem) (bucket key : String) :
    Document :=
  { id := item.id, title := item.title, uploadDate := item.uploadDate,
    fileType := item.fileType, size := item.size, bucket := bucket,
    key := key, status := item.status }

/-! ## Document lifecycle (spec section 4.2; backend Lambda not in the
repository snapshot) -/

/-- Document lifecycle status, `uploaded | indexing | synced | failed`. -/
inductive DocStatus where
  | uploaded
  | indexing
  | synced
  | failed
deriving DecidableEq, Repr

/-- A status store keyed by document id. -/
abbrev DocStore := List (String × DocStatus)

/-- Status lookup for a document id. -/
def lookupStatus (store : DocStore) (docID : String) : Option DocStatus :=
  (List.find? (fun e => e.1 = docID) store).map Prod.snd

/-- Pointwise status update for a document id. -/
def setStatus (store : DocStore) (docID : String) (st : DocStatus) :
    DocStore :=
  List.map (fun e => if e.1 = docID then (e.1, st) else e) store

/-- Outcome of a `requestSync` call. -/
inductive SyncOutcome where
  | notFound
  | alreadyIndexing (current : DocStatus)
  | invalidState (current : DocStatus)
  | accepted
deriving DecidableEq, Repr

/-- Modelled from the spec: `requestSync(documentID)` of the
DocumentLifecycleManager, whose Lambda source (document_syncer.py) is not
part of the repository snapshot. Per the spec it "transitions
uploaded|failed to indexing, enqueues an asynchronous indexing job,
returns immediately" and "fails with NotFound or AlreadyIndexing (no-op,
returns current status) if called while already indexing". The spec gives
no transition out of the terminal `synced` state, so a request on a
synced document is modelled as a state-preserving rejection. -/
def requestSync (store : DocStore) (docID : String) :
    SyncOutcome × DocStore :=
  match lookupStatus store docID with
  | none => (.notFound, store)
  | some .indexing => (.alreadyIndexing .indexing, store)
  | some .synced => (.invalidState .synced, store)
  | some .uploaded => (.accepted, setStatus store docID .indexing)
  | some .failed => (.accepted, setStatus store docID .indexing)

/-- Lifecycle status rendered as the string carried by the status field of
a document-list item. -/
def DocStatus.render : DocStatus → String
  | .uploaded => "uploaded"
  | .indexing => "indexing"
  | .synced => "synced"
  | .failed => "failed"

/-- Modelled from the spec: `list(tenant)` of the DocumentLifecycleManager
(document_manager.py, backing GET documents, is not in the repository
snapshot). Per the spec it "returns all documents for the tenant, each
annotated with current status" — each returned item carries the current
lifecycle status from the status store (polling clients rely on this for
progress display). -/
def listDocuments (docs : List Document) (store : DocStore) : List Document :=
  docs.map (fun d =>
    match lookupStatus store d.id with
    | some st => { d with status := st.render }
    | none => d)

/-! ## Tenant-scoped retrieval (spec sections 4.1, 4.3; backend Lambda not
in the repository snapshot) -/

/-- Tenant context resolved from verified claims: tenant id plus its
assigned index domain. -/
structure TenantContext where
  tenantID : String
  indexDomain : String
deriving DecidableEq, Repr

/-- One passage indexed in a search domain, tagged with the owning
id of the owning tenant and the originating document. -/
structure IndexEntry where
  domain : String
  tenant : String
  docID : String
  content : String
  score : Nat
deriving DecidableEq, Repr

/-- A retrieval result: a passage plus its originating document identity
(tenant and document id), used for source attribution. -/
structure RagSource where
  tenant : String
  docID : String
  snippet : String
  score : Nat
deriving DecidableEq, Repr

/-- Source built from an index hit. -/
def mkRagSource (e : IndexEntry) : RagSource :=
  { tenant := e.tenant, docID := e.docID, snippet := e.content,
    score := e.score }

/-- Ranking order: higher relevance score first. -/
def rankByScore (a b : RagSource) : Prop := b.score ≤ a.score

instance : DecidableRel rankByScore := fun a b => Nat.decLe b.score a.score

/-- Whether an indexed passage matches the query text (full-text scoring
itself is an external capability; substring match stands in for it). -/
def matchesQuery (q : String) (e : IndexEntry) : Bool :=
  (e.content.splitOn q).length ≥ 2

/-- Removal of later sources originating from the same document as an
earlier one (deduplication of passages from one source document). -/
def dedupByDoc : List RagSource → List RagSource
  | [] => []
  | s :: rest =>
      s :: dedupByDoc (rest.filter (fun t => t.docID ≠ s.docID))
termination_by l => l.length
decreasing_by
  simp only [List.length_cons]
  exact Nat.lt_succ_of_le (List.length_filter_le _ _)

/-- Modelled from the spec: `retrieve(tenantContext, queryText, topK)` of
the RetrievalOrchestrator, whose Lambda source (chat_completion.py
retrieval path) is not part of the repository snapshot. Per the spec it
"issues a search against only tenantContext.indexDomain, scoped further by
tenant id within that domain", ranks by relevance score, deduplicates
passages from the same source document, and truncates to `topK`. -/
def retrieve (index : List IndexEntry) (ctx : TenantContext) (q : String)
    (topK : Nat) : List RagSource :=
  let hits := index.filter
    (fun e => e.domain = ctx.indexDomain ∧ e.tenant = ctx.tenantID
      ∧ matchesQuery q e)
  let ranked := (hits.map mkRagSource).insertionSort rankByScore
  (dedupByDoc ranked).take topK

/-- Whether a retrieval result is derived from a given indexed document:
it attributes the same owning tenant and document id. -/
def derivedFrom (s : RagSource) (d : IndexEntry) : Bool :=
  s.tenant = d.tenant ∧ s.docID = d.docID

/-! ## Concrete records used by witnesses -/

/-- Concrete index entry owned by tenant-1 in domain-a. -/
def entryT1 : IndexEntry :=
  { domain := "domain-a", tenant := "tenant-1", docID := "doc-1",
    content := "termination clause text", score := 3 }

/-- Concrete index entry owned by tenant-2 in domain-b, containing the
same query phrase. -/
def entryT2 : IndexEntry :=
  { domain := "domain-b", tenant := "tenant-2", docID := "doc-2",
    content := "termination clause copy", score := 2 }

/-- Concrete tenant context for tenant-2. -/
def ctxT2 : TenantContext :=
  { tenantID := "tenant-2", indexDomain := "domain-b" }

/-- Concrete two-message conversation: a user message and the in-flight
assistant placeholder, both timestamped 7. -/
def demoMessages : List Message := [userMessage "hello" 7, loadingMessage 7]

/-- Concrete document record. -/
def docA : Document :=
  { id := "d1", title := "contract", uploadDate := "2024-01-01",
    fileType := "pdf", size := "1 KB", bucket := "bucket-a", key := "k1",
    status := "synced" }

/-- Identical to `docA` except for the `bucket` field. -/
def docB : Document :=
  { id := "d1", title := "contract", uploadDate := "2024-01-01",
    fileType := "pdf", size := "1 KB", bucket := "bucket-b", key := "k1",
    status := "synced" }

/-! ## Helper lemmas -/

/-- Deduplication only drops elements: every survivor was in the input. -/
theorem mem_of_mem_dedupByDoc {s : RagSource} :
    ∀ {l : List RagSource}, s ∈ dedupByDoc l → s ∈ l
  | [], h => by simp [dedupByDoc] at h
  | a :: rest, h => by
      rw [dedupByDoc] at h
      rcases List.mem_cons.mp h with h1 | h2
      · exact h1 ▸ List.mem_cons_self a rest
      · exact List.mem_cons_of_mem a
          (List.mem_of_mem_filter (mem_of_mem_dedupByDoc h2))
termination_by l => l.length
decreasing_by
  simp only [List.length_cons]
  exact Nat.lt_succ_of_le (List.length_filter_le _ _)

/-- Every source returned by `retrieve` is attributed to the requesting
tenant: the query is filtered by `ctx.indexDomain` and `ctx.tenantID`
before ranking, deduplication and truncation. -/
theorem retrieve_tenant_of_mem (index : List IndexEntry) (ctx : TenantContext)
    (q : String) (topK : Nat) {s : RagSource}
    (hs : s ∈ retrieve index ctx q topK) : s.tenant = ctx.tenantID := by
  unfold retrieve at hs
  have h1 : s ∈ dedupByDoc (((index.filter
      (fun e => e.domain = ctx.indexDomain ∧ e.tenant = ctx.tenantID
        ∧ matchesQuery q e)).map mkRagSource).insertionSort rankByScore) :=
    List.mem_of_mem_take hs
  have h2 := mem_of_mem_dedupByDoc h1
  have h3 := (List.perm_insertionSort rankByScore _).mem_iff.mp h2
  rcases List.mem_map.mp h3 with ⟨e, he, rfl⟩
  rcases List.mem_filter.mp he with ⟨_, hp⟩
  simp only [decide_eq_true_eq] at hp
  exact hp.2.1

/-- Error-message ids and loading-placeholder ids never coincide: one
starts with `error-`, the other with `assistant-`. -/
theorem mkErrorId_ne_mkLoadingId (t1 t2 : Nat) :
    mkErrorId t2 ≠ mkLoadingId t1 := by
  intro h
  have hd : (mkErrorId t2).data = (mkLoadingId t1).data := by rw [h]
  simp only [mkErrorId, mkLoadingId] at hd
  have he : ("error-" ++ toString t2).data
      = 'e' :: 'r' :: 'r' :: 'o' :: 'r' :: '-' :: (toString t2).data := rfl
  have ha : ("assistant-" ++ toString t1).data
      = 'a' :: 's' :: 's' :: 'i' :: 's' :: 't' :: 'a' :: 'n' :: 't' :: '-'
        :: (toString t1).data := rfl
  rw [he, ha] at hd
  exact absurd (List.head_eq_of_cons_eq hd) (by decide)

/-- User-message ids and loading-placeholder ids never coincide: one
starts with `user-`, the other with `assistant-`. -/
theorem mkUserId_ne_mkLoadingId (t1 t2 : Nat) :
    mkUserId t2 ≠ mkLoadingId t1 := by
  intro h
  have hd : (mkUserId t2).data = (mkLoadingId t1).data := by rw [h]
  simp only [mkUserId, mkLoadingId] at hd
  have hu : ("user-" ++ toString t2).data
      = 'u' :: 's' :: 'e' :: 'r' :: '-' :: (toString t2).data := rfl
  have ha : ("assistant-" ++ toString t1).data
      = 'a' :: 's' :: 's' :: 'i' :: 's' :: 't' :: 'a' :: 'n' :: 't' :: '-'
        :: (toString t1).data := rfl
  rw [hu, ha] at hd
  exact absurd (List.head_eq_of_cons_eq hd) (by decide)

/-- After the success-path update, the conversation built by `sendMessage`
(previous messages, then the user message, then the placeholder) ends with
the final assistant message. -/
theorem replaceLoading_getLast (msgs : List Message) (input ans : String)
    (srcs : List ChatSource) (t : Nat) :
    (replaceLoadingMessage (msgs ++ [userMessage input t, loadingMessage t])
        (mkLoadingId t) ans srcs t).getLast? =
      some (finalAssistantMessage (mkLoadingId t) ans srcs t) := by
  rw [replaceLoadingMessage, List.map_append]
  simp only [List.map_cons, List.map_nil]
  have h2 : (if (loadingMessage t).id = mkLoadingId t then
      ({ id := (loadingMessage t).id, role := .assistant, content := ans,
         timestamp := t, sources := some srcs } : Message)
    else loadingMessage t) = finalAssistantMessage (mkLoadingId t) ans srcs t := by
    simp [loadingMessage, finalAssistantMessage]
  rw [h2, List.getLast?_append_cons, List.getLast?_cons_cons]
  rfl

/-- A folded key-by-key deletion over a superset of the keys present in
the accumulator empties it. -/
theorem eraseFold_eq_nil :
    ∀ (ks : List String) (acc : Headers),
      (∀ kv ∈ acc, kv.1 ∈ ks) →
      ks.foldl (fun acc k => acc.filter (fun kv => kv.1 ≠ k)) acc = [] := by
  intro ks
  induction ks with
  | nil =>
      intro acc h
      simpa using List.eq_nil_iff_forall_not_mem.mpr
        (fun kv hkv => by simpa using h kv hkv)
  | cons k ks ih =>
      intro acc h
      simp only [List.foldl_cons]
      apply ih
      intro kv hkv
      have hmem := List.mem_of_mem_filter hkv
      have hne : kv.1 ≠ k := by
        have := List.of_mem_filter hkv
        simpa using this
      rcases List.mem_cons.mp (h kv hmem) with h1 | h2
      · exact absurd h1 hne
      · exact h2

/-- Deleting every present key leaves no headers at all. -/
theorem eraseAllKeys_eq_nil (h : Headers) : eraseAllKeys h = [] := by
  apply eraseFold_eq_nil
  intro kv hkv
  exact List.mem_map_of_mem Prod.fst hkv

/-- Status lookup after a pointwise status update on a present key. -/
theorem lookupStatus_setStatus (store : DocStore) (docID : String)
    (st : DocStatus) (h : (lookupStatus store docID).isSome) :
    lookupStatus (setStatus store docID st) docID = some st := by
  induction store with
  | nil => simp [lookupStatus] at h
  | cons e rest ih =>
      rcases e with ⟨k, v⟩
      by_cases hk : k = docID
      · subst hk
        simp [lookupStatus, setStatus, List.find?_cons]
      · have h' : (lookupStatus rest docID).isSome := by
          simpa [lookupStatus, List.find?_cons, hk] using h
        simpa [lookupStatus, setStatus, List.find?_cons, hk] using ih h'

/-! ## Claim theorems -/

/-- C1: for distinct tenants T1 and T2 and any document D indexed under
T1, a retrieval on behalf of T2 (any query, any topK, any index content)
never returns a source derived from D. -/
theorem retrieve_never_returns_other_tenants_documents
    (index : List IndexEntry) (ctx : TenantContext) (q : String)
    (topK : Nat) (T1 : String) (D : IndexEntry)
    (hT : T1 ≠ ctx.tenantID) (hD : D.tenant = T1) :
    (retrieve index ctx q topK).all (fun s => !(derivedFrom s D)) = true := by
  rw [List.all_eq_true]
  intro s hs
  have hten := retrieve_tenant_of_mem index ctx q topK hs
  simp only [derivedFrom, Bool.not_eq_true', decide_eq_false_iff_not]
  rintro ⟨h1, _⟩
  exact hT (by rw [← hD, ← h1, hten])

/-- Witness for C1: a two-tenant index in which a retrieval by tenant-2 of
a phrase both tenants hold never surfaces the document of tenant-1. -/
theorem retrieve_never_returns_other_tenants_documents_witness :
    ("tenant-1" ≠ ctxT2.tenantID ∧ entryT1.tenant = "tenant-1") ∧
    (retrieve [entryT1, entryT2] ctxT2 "termination" 5).all
      (fun s => !(derivedFrom s entryT1)) = true :=
  ⟨⟨by decide, rfl⟩,
    retrieve_never_returns_other_tenants_documents [entryT1, entryT2] ctxT2
      "termination" 5 "tenant-1" entryT1 (by decide) rfl⟩

/-- C2: every method registered by `setupRoutes` — POST /chat/messages,
GET /documents, DELETE /documents, GET /documents/upload-url,
POST /documents/sync, GET /consumption/dashboard — carries the Cognito
user-pool authorizer with COGNITO authorization, and a request without
verified identity claims is rejected before any handler runs. -/
theorem api_methods_require_cognito_authorizer :
    setupRoutes.map (fun r => (r.method, r.path)) =
      [(.POST, "/chat/messages"), (.GET, "/documents"),
       (.DELETE, "/documents"), (.GET, "/documents/upload-url"),
       (.POST, "/documents/sync"), (.GET, "/consumption/dashboard")] ∧
    setupRoutes.all (fun r =>
      decide (r.authorizationType = .COGNITO) && r.usesCognitoAuthorizer)
      = true ∧
    setupRoutes.all (fun r => !(authorize r none)) = true :=
  ⟨rfl, rfl, rfl⟩

/-- C3: the POST /documents/sync method is fire-and-forget — the request
template overrides X-Amz-Invocation-Type to Event, the integration is
non-proxy, and the response of the method is the fixed 202/accepted template,
independent of whatever the handler would return; the client call also
sends the Event invocation header. -/
theorem sync_endpoint_async_fire_and_forget (h : HandlerOutcome)
    (docId : String) :
    integrationRespond syncMethodConfig h = ("202", "accepted") ∧
    syncMethodConfig.proxy = false ∧
    syncMethodConfig.invocationTypeOverride = "Event" ∧
    (syncDocument docId).method = .POST ∧
    (syncDocument docId).path = "/documents/sync" ∧
    (syncDocument docId).headers = [("X-Amz-Invocation-Type", "Event")] :=
  ⟨rfl, rfl, rfl, rfl, rfl, rfl⟩

/-- C4: `requestSync` answers NotFound for an unknown document, is a
status-preserving no-op answering AlreadyIndexing while the document is
already indexing, and transitions a document in uploaded or failed state
to indexing. -/
theorem requestSync_lifecycle_contract (store : DocStore) (docID : String) :
    match lookupStatus store docID with
    | none => requestSync store docID = (.notFound, store)
    | some .indexing =>
        requestSync store docID = (.alreadyIndexing .indexing, store)
    | some .synced => (requestSync store docID).2 = store
    | some .uploaded =>
        (requestSync store docID).1 = .accepted ∧
        lookupStatus (requestSync store docID).2 docID = some .indexing
    | some .failed =>
        (requestSync store docID).1 = .accepted ∧
        lookupStatus (requestSync store docID).2 docID = some .indexing := by
  cases hl : lookupStatus store docID with
  | none => simp [requestSync, hl]
  | some st =>
      cases st
      · exact ⟨by simp [requestSync, hl], by
          simp only [requestSync, hl]
          exact lookupStatus_setStatus store docID .indexing (by simp [hl])⟩
      · simp [requestSync, hl]
      · simp [requestSync, hl]
      · exact ⟨by simp [requestSync, hl], by
          simp only [requestSync, hl]
          exact lookupStatus_setStatus store docID .indexing (by simp [hl])⟩

/-- C5: on a successful chat turn the update applied to the message list
preserves its length, leaves every message whose id differs from the
id of the placeholder untouched at its position, replaces the message at
the position of the placeholder by the final assistant message with the same id,
and keeps exactly one message with that id. -/
theorem chat_success_replaces_placeholder_in_place
    (msgs : List Message) (lid ans : String) (srcs : List ChatSource)
    (t : Nat) (h : msgs.countP (fun m => m.id = lid) = 1) :
    (replaceLoadingMessage msgs lid ans srcs t).length = msgs.length ∧
    (∀ (i : Nat) (m : Message), msgs[i]? = some m → m.id ≠ lid →
      (replaceLoadingMessage msgs lid ans srcs t)[i]? = some m) ∧
    (∀ (i : Nat) (m : Message), msgs[i]? = some m → m.id = lid →
      (replaceLoadingMessage msgs lid ans srcs t)[i]? =
        some (finalAssistantMessage lid ans srcs t)) ∧
    (replaceLoadingMessage msgs lid ans srcs t).countP
      (fun m => m.id = lid) = 1 := by
  refine ⟨by simp [replaceLoadingMessage], ?_, ?_, ?_⟩
  · intro i m hm hne
    simp [replaceLoadingMessage, List.getElem?_map, hm, hne]
  · intro i m hm he
    simp [replaceLoadingMessage, List.getElem?_map, hm, he,
      finalAssistantMessage]
  · rw [replaceLoadingMessage, List.countP_map, ← h]
    apply List.countP_congr
    intro m _
    by_cases hid : m.id = lid <;> simp [Function.comp, hid]

/-- Witness for C5 on a concrete conversation holding one placeholder. -/
theorem chat_success_replaces_placeholder_in_place_witness :
    demoMessages.countP (fun m => m.id = mkLoadingId 7) = 1 ∧
    ((replaceLoadingMessage demoMessages (mkLoadingId 7) "answer" [] 8).length
        = demoMessages.length ∧
      (∀ (i : Nat) (m : Message), demoMessages[i]? = some m → m.id ≠ mkLoadingId 7 →
        (replaceLoadingMessage demoMessages (mkLoadingId 7) "answer" [] 8)[i]?
          = some m) ∧
      (∀ (i : Nat) (m : Message), demoMessages[i]? = some m → m.id = mkLoadingId 7 →
        (replaceLoadingMessage demoMessages (mkLoadingId 7) "answer" [] 8)[i]?
          = some (finalAssistantMessage (mkLoadingId 7) "answer" [] 8)) ∧
      (replaceLoadingMessage demoMessages (mkLoadingId 7) "answer" [] 8).countP
        (fun m => m.id = mkLoadingId 7) = 1) :=
  ⟨by decide,
    chat_success_replaces_placeholder_in_place demoMessages (mkLoadingId 7)
      "answer" [] 8 (by decide)⟩

/-- C6: on a failed chat turn the recovery update removes the loading
placeholder (no message with its id survives), appends the single
assistant error message with empty sources and no loading flag, and adds
nothing else: every resulting message is either a pre-existing one or
that error message. -/
theorem chat_error_single_error_message (msgs : List Message)
    (t1 t2 : Nat) :
    (errorRecovery msgs (mkLoadingId t1) t2).countP
      (fun m => m.id = mkLoadingId t1) = 0 ∧
    errorMessage t2 ∈ errorRecovery msgs (mkLoadingId t1) t2 ∧
    (errorMessage t2).role = .assistant ∧
    (errorMessage t2).sources = some [] ∧
    (errorMessage t2).loading = false ∧
    (∀ m ∈ errorRecovery msgs (mkLoadingId t1) t2,
      m ∈ msgs ∨ m = errorMessage t2) := by
  refine ⟨?_, ?_, rfl, rfl, rfl, ?_⟩
  · rw [List.countP_eq_zero]
    intro m hm
    rcases List.mem_append.mp hm with h1 | h2
    · have := List.of_mem_filter h1
      simpa using this
    · simp only [List.mem_singleton] at h2
      subst h2
      simpa [errorMessage] using mkErrorId_ne_mkLoadingId t1 t2
  · exact List.mem_append_right _ (List.mem_singleton.mpr rfl)
  · intro m hm
    rcases List.mem_append.mp hm with h1 | h2
    · exact Or.inl (List.mem_of_mem_filter h1)
    · exact Or.inr (List.mem_singleton.mp h2)

/-- Witness for C6 on the concrete conversation. -/
theorem chat_error_single_error_message_witness :
    (errorRecovery demoMessages (mkLoadingId 7) 9).countP
      (fun m => m.id = mkLoadingId 7) = 0 ∧
    errorMessage 9 ∈ errorRecovery demoMessages (mkLoadingId 7) 9 ∧
    (errorMessage 9).role = .assistant ∧
    (errorMessage 9).sources = some [] ∧
    (errorMessage 9).loading = false ∧
    (∀ m ∈ errorRecovery demoMessages (mkLoadingId 7) 9,
      m ∈ demoMessages ∨ m = errorMessage 9) :=
  chat_error_single_error_message demoMessages 7 9

/-- C7: when the backend response carries no sources (absent field or an
empty array), the sources are normalised to the empty array, the turn
still ends with the final assistant message holding the answer text, and
that message renders the explicit no-grounding indication. -/
theorem no_sources_turn_still_answers (msgs : List Message)
    (input : String) (b : ApiResponseBody) (t : Nat)
    (hz : b.sources = none ∨ b.sources = some [])
    (hin : jsTrim input ≠ "") :
    normalizeSources b.sources = [] ∧
    (sendMessage msgs false input t (.ok b)).messages.getLast? =
      some (finalAssistantMessage (mkLoadingId t) b.message [] t) ∧
    (finalAssistantMessage (mkLoadingId t) b.message [] t).content
      = b.message ∧
    groundingText (finalAssistantMessage (mkLoadingId t) b.message [] t)
      = some "No sources used for this response" := by
  have hnorm : normalizeSources b.sources = [] := by
    rcases hz with h | h <;> simp [normalizeSources, h]
  refine ⟨hnorm, ?_, rfl, ?_⟩
  · have hmain : (sendMessage msgs false input t (.ok b)).messages =
        replaceLoadingMessage (msgs ++ [userMessage input t, loadingMessage t])
          (mkLoadingId t) b.message (normalizeSources b.sources) t := by
      simp [sendMessage, hin]
    rw [hmain, hnorm]
    exact replaceLoading_getLast msgs input b.message [] t
  · simp [groundingText, finalAssistantMessage, simpleSourcesText]

/-- Witness for C7: a response with an absent sources field. -/
theorem no_sources_turn_still_answers_witness :
    ((ApiResponseBody.mk "the answer" none).sources = none ∨
      (ApiResponseBody.mk "the answer" none).sources = some []) ∧
    jsTrim " hi " ≠ "" ∧
    (normalizeSources (ApiResponseBody.mk "the answer" none).sources = [] ∧
      (sendMessage demoMessages false " hi " 4
          (.ok (ApiResponseBody.mk "the answer" none))).messages.getLast? =
        some (finalAssistantMessage (mkLoadingId 4) "the answer" [] 4) ∧
      (finalAssistantMessage (mkLoadingId 4) "the answer" [] 4).content
        = "the answer" ∧
      groundingText (finalAssistantMessage (mkLoadingId 4) "the answer" [] 4)
        = some "No sources used for this response") :=
  ⟨Or.inl rfl, by decide,
    no_sources_turn_still_answers demoMessages " hi "
      (ApiResponseBody.mk "the answer" none) 4 (Or.inl rfl) (by decide)⟩

/-- C8 counterexample: document-list records are not records with exactly
the fields id, title, status, uploadDate, size, fileType — two distinct
`Document` records agree on all six of those fields yet differ (in
`bucket`), so the record carries information beyond them. -/
theorem documents_item_not_exactly_six_fields :
    docA ≠ docB ∧ docA.toListItem = docB.toListItem :=
  ⟨by decide, rfl⟩

/-- C8 amended: every document-list record carries the six spec-named
fields id, title, status, uploadDate, size, fileType plus the storage
fields bucket and key, and nothing else — `Document` decomposes exactly
into a `DocumentListItem` and the bucket/key pair — and the status field
reflects the current lifecycle state: every item returned by the listing
carries the rendering of the status currently stored for that document,
with all other fields unchanged. -/
theorem documents_item_fields_plus_storage (d : Document)
    (item : DocumentListItem) (b k : String) (docs : List Document)
    (store : DocStore) :
    Document.ofParts d.toListItem d.bucket d.key = d ∧
    (Document.ofParts item b k).toListItem = item ∧
    (Document.ofParts item b k).bucket = b ∧
    (Document.ofParts item b k).key = k ∧
    (∀ (j : Nat) (e : Document) (st : DocStatus), docs[j]? = some e →
      lookupStatus store e.id = some st →
      (listDocuments docs store)[j]? =
        some { e with status := st.render }) := by
  refine ⟨rfl, rfl, rfl, rfl, ?_⟩
  intro j e st hj hst
  simp [listDocuments, List.getElem?_map, hj, hst]

/-- Witness for C8 amended: a one-document listing over a store in which
the document is currently synced. -/
theorem documents_item_fields_plus_storage_witness :
    Document.ofParts docA.toListItem docA.bucket docA.key = docA ∧
    (Document.ofParts docA.toListItem "bucket-a" "k1").toListItem
      = docA.toListItem ∧
    (Document.ofParts docA.toListItem "bucket-a" "k1").bucket = "bucket-a" ∧
    (Document.ofParts docA.toListItem "bucket-a" "k1").key = "k1" ∧
    (∀ (j : Nat) (e : Document) (st : DocStatus),
      [docA][j]? = some e →
      lookupStatus [("d1", DocStatus.synced)] e.id = some st →
      (listDocuments [docA] [("d1", DocStatus.synced)])[j]? =
        some { e with status := st.render }) :=
  documents_item_fields_plus_storage docA docA.toListItem "bucket-a" "k1"
    [docA] [("d1", DocStatus.synced)]

/-- C9: for a presigned-URL upload the headers that leave the client are
exactly Content-Type and x-amz-meta-original_filename — the Authorization
bearer token set by the interceptor is removed by the transformRequest —
and the request is sent with withCredentials false. -/
theorem upload_put_strips_authorization (idToken : Option String)
    (base : Headers) (fileType fileName : String) :
    uploadRequestHeaders idToken base fileType fileName =
      [("x-amz-meta-original_filename", fileName),
       ("Content-Type", fileType)] ∧
    (uploadRequestHeaders idToken base fileType fileName).lookup
      "Authorization" = none ∧
    uploadFileToUrlConfig.withCredentials = false := by
  have hmain : uploadRequestHeaders idToken base fileType fileName =
      [("x-amz-meta-original_filename", fileName),
       ("Content-Type", fileType)] := by
    unfold uploadRequestHeaders uploadTransformRequest
    rw [eraseAllKeys_eq_nil]
    simp [setHeader]
  refine ⟨hmain, ?_, rfl⟩
  rw [hmain]
  rfl

/-- C10: calling `sendMessage` while a submission is in flight or with
input whose trimmed text is empty is a no-op: no request is sent, and the
message list and the isSubmitting flag keep their previous values. -/
theorem sendMessage_guard_is_noop (msgs : List Message)
    (isSubmitting : Bool) (input : String) (t : Nat)
    (resp : Except Unit ApiResponseBody)
    (h : isSubmitting = true ∨ jsTrim input = "") :
    sendMessage msgs isSubmitting input t resp =
      { messages := msgs, isSubmitting := isSubmitting,
        requestSent := false } := by
  rcases h with h | h <;> simp [sendMessage, h]

/-- Witness for C10: whitespace-only input is a no-op. -/
theorem sendMessage_guard_is_noop_witness :
    (false = true ∨ jsTrim "   " = "") ∧
    sendMessage demoMessages false "   " 3 (.error ()) =
      { messages := demoMessages, isSubmitting := false,
        requestSent := false } :=
  ⟨Or.inr (by decide),
    sendMessage_guard_is_noop demoMessages false "   " 3 (.error ())
      (Or.inr (by decide))⟩

end RagApp
